import Mathlib

/-!
Verification of the invoice lifecycle engine of the freelance-invoice-generator
repository, as a shallow embedding in Lean 4.

Numbers that JavaScript represents as IEEE doubles are modelled as rationals
(`ℚ`); optional / possibly-`undefined` values are modelled as `Option`;
JavaScript falsiness (`undefined`, `0`, the empty string) is modelled
explicitly where the source relies on it (`||` defaulting chains, truthiness
tests).  Fallible external collaborators (the SQL pool, puppeteer, handlebars,
nodemailer) are passed in as explicit `Except` results or functions, so every
control path of the source is a visible branch of the embedding.
-/

/-- JavaScript string padStart: pads on the left with `c` up to length `n`;
a string already at least `n` long is returned unchanged. -/
def padStart (s : String) (n : Nat) (c : Char) : String :=
  if n ≤ s.length then s else String.mk (List.replicate (n - s.length) c) ++ s

/-- Whether `s` begins with `p` (SQL LIKE with a single trailing percent wildcard). -/
def strStartsWith (s p : String) : Bool :=
  s.take p.length == p

/-- JavaScript `a || b` on numeric operands where `none` models
`undefined`/`NaN` and `some 0` is falsy. -/
def jsNumOr (a b : Option ℚ) : Option ℚ :=
  match a with
  | some v => if v = 0 then b else some v
  | none => b

/-- JavaScript truthiness of an optional string (`undefined` and `""` are falsy). -/
def jsTruthyStr (o : Option String) : Bool :=
  match o with
  | some s => s ≠ ""
  | none => false

/-- A line item as embedded in an invoice (src/models/index.js, items array). -/
structure LineItem where
  description : String
  quantity : ℚ
  rate : ℚ
deriving Repr, DecidableEq

/-- The slice of the Invoice record the verified operations touch
(src/models/index.js, Invoice). Timestamps are ISO strings; `none` models an
unset (`NULL`/`undefined`) column. -/
structure Invoice where
  id : String
  clientId : String
  invoiceNumber : String
  status : String
  templateId : String
  sentAt : Option String
  paidAt : Option String
deriving Repr, DecidableEq

/-- src/models/index.js line 214: `items.reduce((sum, item) => sum + (parseFloat(item.quantity) * parseFloat(item.rate)), 0)`. -/
def Invoice.calculateSubtotal (items : List LineItem) : ℚ :=
  items.foldl (fun sum item => sum + item.quantity * item.rate) 0

/-- src/models/index.js line 218: `subtotal * parseFloat(taxRate)`. -/
def Invoice.calculateTaxAmount (subtotal taxRate : ℚ) : ℚ :=
  subtotal * taxRate

/-- src/models/index.js line 222: `subtotal + taxAmount - parseFloat(discountAmount || 0)`,
with `discountAmount` defaulting to 0 when absent or 0. -/
def Invoice.calculateTotal (subtotal taxAmount : ℚ) (discountAmount : Option ℚ) : ℚ :=
  subtotal + taxAmount - ((jsNumOr discountAmount (some 0)).getD 0)

/-- SQL LIKE pattern prefix used by `generateInvoiceNumber`:
`INV-` followed by the year, the two-digit month and a dash. -/
def periodPattern (year month : Nat) : String :=
  "INV-" ++ toString year ++ padStart (toString month) 2 '0' ++ "-"

/-- src/models/index.js lines 190-206: count existing invoice numbers matching
the current period pattern, use count+1 zero-padded to 4 digits; on any store
failure fall back to `INV-` plus the epoch-millisecond timestamp.  The store
read is passed in as an `Except`: `.ok numbers` is the successful query over
the stored invoice numbers, `.error` an unavailable store. -/
def Invoice.generateInvoiceNumber (year month : Nat)
    (query : Except Unit (List String)) (nowMillis : Nat) : String :=
  match query with
  | .ok numbers =>
      let count := (numbers.filter (fun s => strStartsWith s (periodPattern year month))).length
      "INV-" ++ toString year ++ padStart (toString month) 2 '0' ++ "-"
        ++ padStart (toString (count + 1)) 4 '0'
  | .error _ => "INV-" ++ toString nowMillis

/-- src/models/index.js line 176 (Invoice constructor):
`parseFloat(data.tax_rate || data.taxRate) || parseFloat(process.env.TAX_RATE || '0.08')`.
`snake`/`camel` are the two input spellings (`none` = field absent), `env`
the parsed `TAX_RATE` environment value (`none` = unset). -/
def Invoice.constructorTaxRate (snake camel env : Option ℚ) : ℚ :=
  match jsNumOr snake camel with
  | some v => if v = 0 then env.getD (8 / 100) else v
  | none => env.getD (8 / 100)

/-- src/models/index.js lines 292 and 318 (Invoice.create):
`data.taxRate || 0.08` with the literal default. -/
def Invoice.createTaxRate (taxRate : Option ℚ) : ℚ :=
  match taxRate with
  | some v => if v = 0 then 8 / 100 else v
  | none => 8 / 100

/-- src/models/index.js lines 430-440 (Invoice.updateStatus): the update sets
`status`, adds `sentAt = now` only when entering `sent` with `sentAt` unset,
else adds `paidAt = now` only when entering `paid` with `paidAt` unset;
`Invoice.update` then applies exactly the supplied fields. -/
def Invoice.updateStatus (inv : Invoice) (status : String) (nowIso : String) : Invoice :=
  if status == "sent" && inv.sentAt == none then
    { inv with status := status, sentAt := some nowIso }
  else if status == "paid" && inv.paidAt == none then
    { inv with status := status, paidAt := some nowIso }
  else
    { inv with status := status }

/-- Outcome of the invoice delete endpoint. -/
inductive DeleteOutcome where
  | notFound
  | paidRejected
  | deleted
deriving Repr, DecidableEq

/-- JavaScript semantics of calling an async function without await: the
binding holds a pending Promise, which is an object and therefore truthy. -/
def promiseTruthy : Bool := true

/-- JavaScript semantics of reading a data property on a pending Promise:
the Promise has none of the model record's fields, so the read yields
undefined. -/
def promiseField (_field : String) : Option String := none

/-- src/controllers/invoiceController.js lines 216-255 (deleteInvoice).
`Invoice.findById` and `Invoice.delete` are async but called WITHOUT await
(lines 221 and 237), so `invoice` and `deleted` are pending Promises: the
`!invoice` check never fires, `invoice.status` reads undefined so the paid
guard never fires, `!deleted` never fires, and the un-awaited
`Invoice.delete(id)` still removes the row.  Returns the outcome and the
store after the request (including the eventual deletion). -/
def deleteInvoice (invoices : List Invoice) (id : String) :
    DeleteOutcome × List Invoice :=
  if !promiseTruthy then (.notFound, invoices)
  else if promiseField "status" == some "paid" then (.paidRejected, invoices)
  else if !promiseTruthy then (.notFound, invoices)
  else (.deleted, invoices.filter (fun i => i.id ≠ id))

/-- The Template record (src/models/index.js, Template constructor fields the
verified operations touch). -/
structure Template where
  id : String
  name : String
  description : String
  htmlContent : String
  cssContent : String
  isDefault : Bool
deriving Repr, DecidableEq

/-- Input data for `new Template(data)` / `Template.create`; `none` models an
absent field, defaulted by the constructor. -/
structure TemplateData where
  id : Option String
  name : String
  description : Option String
  htmlContent : String
  cssContent : Option String
  isDefault : Option Bool
deriving Repr, DecidableEq

/-- src/models/index.js lines 445-455 (Template constructor): defaults for the
optional fields; `freshId` stands for the generated uuid used when no id is
supplied. -/
def Template.mkNew (data : TemplateData) (freshId : String) : Template :=
  { id := data.id.getD freshId
    name := data.name
    description := data.description.getD ""
    htmlContent := data.htmlContent
    cssContent := data.cssContent.getD ""
    isDefault := data.isDefault.getD false }

/-- src/models/index.js lines 469-479 (Template.create): build the record; if
it is flagged default, clear `isDefault` on every existing template; push.
Returns the created template and the store after. -/
def Template.create (db : List Template) (data : TemplateData) (freshId : String) :
    Template × List Template :=
  let t := Template.mkNew data freshId
  let cleared := if t.isDefault then db.map (fun x => { x with isDefault := false }) else db
  (t, cleared ++ [t])

/-- Partial update payload for `Template.update` (spread-merged over the
existing record; `none` = field absent from the request body). -/
structure TemplateUpdateData where
  name : Option String
  description : Option String
  htmlContent : Option String
  cssContent : Option String
  isDefault : Option Bool
deriving Repr, DecidableEq

/-- The merge `new Template({...old, ...data, id})` performed by
src/models/index.js lines 485-490: request fields override, the id is kept. -/
def Template.applyUpdate (old : Template) (d : TemplateUpdateData) : Template :=
  { id := old.id
    name := d.name.getD old.name
    description := d.description.getD old.description
    htmlContent := d.htmlContent.getD old.htmlContent
    cssContent := d.cssContent.getD old.cssContent
    isDefault := d.isDefault.getD old.isDefault }

/-- src/models/index.js lines 481-501 (Template.update): locate the record by
index; merge; if the merged record is flagged default, clear `isDefault` on
every template at a different index; store the merged record at the index. -/
def Template.update (db : List Template) (id : String) (d : TemplateUpdateData) :
    Option Template × List Template :=
  match db.findIdx? (fun t => t.id == id) with
  | none => (none, db)
  | some i =>
      match db[i]? with
      | none => (none, db)
      | some old =>
          let updated := Template.applyUpdate old d
          let cleared :=
            if updated.isDefault then
              db.mapIdx (fun j t => if j = i then t else { t with isDefault := false })
            else db
          (some updated, cleared.set i updated)

/-- Outcome of the template create endpoint
(src/controllers/templateController.js lines 47-84). -/
inductive TemplateCreateResult where
  | nameConflict
  | parseError (details : String)
  | created (t : Template)
deriving Repr, DecidableEq

/-- src/controllers/templateController.js lines 47-84 (createTemplate):
reject a duplicate name; then syntax-check the body with handlebars
(`compile`, the external collaborator: `.error msg` models a compile throw);
only then store.  Returns the HTTP-level outcome and the store after. -/
def createTemplate (db : List Template) (body : TemplateData)
    (compile : String → Except String Unit) (freshId : String) :
    TemplateCreateResult × List Template :=
  if db.any (fun t => t.name == body.name) then
    (.nameConflict, db)
  else
    match compile body.htmlContent with
    | .error e => (.parseError e, db)
    | .ok _ =>
        let (t, db2) := Template.create db body freshId
        (.created t, db2)

/-- Outcome of the template update endpoint
(src/controllers/templateController.js lines 86-136). -/
inductive TemplateUpdateResult where
  | notFound
  | nameConflict
  | parseError (details : String)
  | updated (t : Template)
deriving Repr, DecidableEq

/-- src/controllers/templateController.js lines 86-136 (updateTemplate):
404 when the id is unknown; reject a (truthy) renamed name colliding with a
different template; syntax-check the body when a (truthy) `htmlContent` is
supplied; only then apply `Template.update`. -/
def updateTemplate (db : List Template) (id : String) (body : TemplateUpdateData)
    (compile : String → Except String Unit) :
    TemplateUpdateResult × List Template :=
  match db.find? (fun t => t.id == id) with
  | none => (.notFound, db)
  | some existing =>
      if jsTruthyStr body.name && (body.name.getD "" != existing.name)
          && db.any (fun t => t.id != id && t.name == body.name.getD "") then
        (.nameConflict, db)
      else
        match if jsTruthyStr body.htmlContent
              then compile (body.htmlContent.getD "")
              else .ok () with
        | .error e => (.parseError e, db)
        | .ok _ =>
            match Template.update db id body with
            | (some t, db2) => (.updated t, db2)
            | (none, db2) => (.notFound, db2)

/-- The slice of the Client record the verified operations touch. -/
structure Client where
  id : String
  name : String
  email : String
deriving Repr, DecidableEq

/-- Typed failures of the rendering / PDF pipeline (§7 error kinds, plus the
TypeError a JavaScript method call on a pending Promise raises). -/
inductive PdfError where
  | invoiceNotFound
  | clientNotFound
  | templateNotFound
  | renderFailure (msg : String)
  | typeError (msg : String)
  | launchFailure
  | pageFailure
  | contentTimeout
  | extractFailure
  | saveFailure
deriving Repr, DecidableEq

/-- src/controllers/templateController.js lines 275-315
(renderInvoiceWithTemplate), idealized AS IF the model calls were awaited:
resolve invoice, then its client, then the template (explicit truthy
`templateId`, else the stored template id, else the default flag, else the
first template); compile-and-apply the handlebars body (`hb`, the external
collaborator: `.error` models a compile/render throw).  In the source,
`Invoice.findById` at line 276 is NOT awaited, so as executed every call
fails with a TypeError before any lookup — see
`renderInvoiceWithTemplateUnawaited` below.  This awaited idealization
strictly enlarges the set of pipeline paths reachable downstream of the
render step; it is used only for the browser-lifetime accounting, which must
hold on all of those paths. -/
def renderInvoiceWithTemplate (invoices : List Invoice) (clients : List Client)
    (templates : List Template) (invoiceId : String) (templateId : Option String)
    (hb : String → Except String String) : Except PdfError String :=
  match invoices.find? (fun i => i.id == invoiceId) with
  | none => .error .invoiceNotFound
  | some invoice =>
      match clients.find? (fun c => c.id == invoice.clientId) with
      | none => .error .clientNotFound
      | some _client =>
          let tpl : Option Template :=
            if jsTruthyStr templateId then
              templates.find? (fun t => t.id == templateId.getD "")
            else
              ((templates.find? (fun t => t.id == invoice.templateId)).orElse
                (fun _ => (templates.find? (fun t => t.isDefault)).orElse
                  (fun _ => templates.head?)))
          match tpl with
          | none => .error .templateNotFound
          | some template =>
              match hb template.htmlContent with
              | .error e => .error (.renderFailure e)
              | .ok html => .ok html

/-- src/controllers/templateController.js lines 275-315 as executed:
`Invoice.findById` at line 276 is async but called WITHOUT await, so
`invoice` is a pending Promise.  The `!invoice` guard at line 277 never
fires (a Promise is truthy), and the method call `invoice.getClient()` at
line 281 throws `TypeError: invoice.getClient is not a function` on every
call — for missing and present invoice ids alike — before any store lookup
or template resolution happens. -/
def renderInvoiceWithTemplateUnawaited (_invoiceId : String)
    (_templateId : Option String) : Except PdfError String :=
  if !promiseTruthy then .error .invoiceNotFound
  else .error (.typeError "invoice.getClient is not a function")

/-- Observable rendering-engine lifecycle events of one `generateInvoicePDF`
call: the successful `puppeteer.launch` and the `browser.close()` attempt of
the `finally` block. -/
inductive PdfEvent where
  | browserLaunched
  | browserClosed
deriving Repr, DecidableEq

/-- Outcomes of the puppeteer steps of one call, supplied by the environment:
each `.error` models that step throwing (for `setContent`, also the 30s
content-load timeout). -/
structure PdfEnv where
  launch : Except String Unit
  newPage : Except String Unit
  setContent : Except String Unit
  extractPdf : Except String (List Nat)
  saveFile : Except String Unit
deriving Repr

/-- Result of a successful PDF generation. -/
structure PdfResult where
  filename : String
  bytes : List Nat
  size : Nat
deriving Repr, DecidableEq

/-- src/services/pdfService.js lines 27-112 (generateInvoicePDF): render the
HTML; launch the browser (only reached when rendering succeeded; a launch
throw leaves `browser` null); then page creation, content load, PDF
extraction, a second invoice lookup for the filename, and the file save, each
of which may throw; the `finally` block closes the browser whenever it was
launched.  Returns the call result together with the ordered trace of
rendering-engine lifecycle events.  The render step here is the awaited
idealization of `renderInvoiceWithTemplate`, so the browser-lifetime
accounting is proven over every pipeline path the intended render could
reach; in the source the un-awaited render always throws before the launch
(see `generateInvoicePDFUnawaited`), which only removes paths. -/
def generateInvoicePDF (invoices : List Invoice) (clients : List Client)
    (templates : List Template) (invoiceId : String) (templateId : Option String)
    (hb : String → Except String String) (env : PdfEnv) (nowMillis : Nat) :
    Except PdfError PdfResult × List PdfEvent :=
  match renderInvoiceWithTemplate invoices clients templates invoiceId templateId hb with
  | .error e => (.error e, [])
  | .ok _html =>
      match env.launch with
      | .error _ => (.error .launchFailure, [])
      | .ok _ =>
          let closed := fun (r : Except PdfError PdfResult) =>
            (r, [PdfEvent.browserLaunched, PdfEvent.browserClosed])
          match env.newPage with
          | .error _ => closed (.error .pageFailure)
          | .ok _ =>
              match env.setContent with
              | .error _ => closed (.error .contentTimeout)
              | .ok _ =>
                  match env.extractPdf with
                  | .error _ => closed (.error .extractFailure)
                  | .ok bytes =>
                      match invoices.find? (fun i => i.id == invoiceId) with
                      | none => closed (.error .invoiceNotFound)
                      | some invoice =>
                          match env.saveFile with
                          | .error _ => closed (.error .saveFailure)
                          | .ok _ =>
                              closed (.ok
                                { filename := "invoice-" ++ invoice.invoiceNumber
                                    ++ "-" ++ toString nowMillis ++ ".pdf"
                                  bytes := bytes
                                  size := bytes.length })

/-- src/services/pdfService.js lines 27-112 as executed: the same try/finally
pipeline, but driven by the render call as the source actually performs it
(`renderInvoiceWithTemplateUnawaited`), which throws a TypeError on every
call before `puppeteer.launch` is reached.  The filename branch reflects that
line 77 also omits await: `invoice.invoiceNumber` on the pending Promise is
undefined, so the template literal renders the text undefined (that branch is
unreachable, since the render step always throws first). -/
def generateInvoicePDFUnawaited (invoiceId : String) (templateId : Option String)
    (env : PdfEnv) (nowMillis : Nat) : Except PdfError PdfResult × List PdfEvent :=
  match renderInvoiceWithTemplateUnawaited invoiceId templateId with
  | .error e => (.error e, [])
  | .ok _html =>
      match env.launch with
      | .error _ => (.error .launchFailure, [])
      | .ok _ =>
          let closed := fun (r : Except PdfError PdfResult) =>
            (r, [PdfEvent.browserLaunched, PdfEvent.browserClosed])
          match env.newPage with
          | .error _ => closed (.error .pageFailure)
          | .ok _ =>
              match env.setContent with
              | .error _ => closed (.error .contentTimeout)
              | .ok _ =>
                  match env.extractPdf with
                  | .error _ => closed (.error .extractFailure)
                  | .ok bytes =>
                      match env.saveFile with
                      | .error _ => closed (.error .saveFailure)
                      | .ok _ =>
                          closed (.ok
                            { filename := "invoice-undefined-"
                                ++ toString nowMillis ++ ".pdf"
                              bytes := bytes
                              size := bytes.length })

/-- Options of the send-invoice endpoint (src/services/emailService.js);
in the source the call throws before any of them is consulted. -/
structure EmailOptions where
  toRecipients : Option String
  cc : Option String
  bcc : Option String
  subject : Option String
  message : Option String
  templateId : Option String
  attachPdf : Option Bool
deriving Repr, DecidableEq

/-- Logged degradations of one send-invoice call. -/
inductive EmailLog where
  | pdfAttachmentFailed (msg : String)
deriving Repr, DecidableEq

/-- Result of a successful send. -/
structure EmailResponse where
  messageId : String
  attachmentCount : Nat
deriving Repr, DecidableEq

/-- src/services/emailService.js lines 55-149 (sendInvoiceEmail) as
executed.  `Invoice.findById` at line 61 is async but called WITHOUT await,
so `invoice` is a pending Promise: the `!invoice` guard at line 62 never
fires, and the method call `invoice.getClient()` at line 66 throws
`TypeError: invoice.getClient is not a function` on every call.  The outer
catch (lines 145-148) logs and rethrows it, so the PDF-attachment try/catch,
the transport hand-off (`mailResult`) and the draft→sent status update are
never reached, whatever the PDF and mail collaborators would have returned.
The stores, options and collaborator outcomes are kept as parameters to
exhibit that the result depends on none of them. -/
def sendInvoiceEmail (_invoices : List Invoice) (_clients : List Client)
    (_invoiceId : String) (_opts : EmailOptions)
    (_pdfResult : Except String (List Nat)) (_mailResult : Except String String) :
    Except String EmailResponse × List EmailLog :=
  if !promiseTruthy then (.error "Invoice not found", [])
  else (.error "TypeError: invoice.getClient is not a function", [])

/-- Whether a create outcome is the structured parse-failure rejection. -/
def TemplateCreateResult.isParseError : TemplateCreateResult → Bool
  | .parseError _ => true
  | _ => false

/-- A concrete instance of the handlebars compile collaborator used for
closed evaluations: it rejects the body "BAD" with a parse message and
accepts everything else. -/
def hbCompileStub : String → Except String Unit :=
  fun s => if s == "BAD" then .error "Parse error on line 1: unexpected end of input"
           else .ok ()

/-- Helper: a foldl accumulating sums equals the initial value plus the map-sum. -/
lemma foldl_add_map_sum (items : List LineItem) :
    ∀ init : ℚ,
      items.foldl (fun sum item => sum + item.quantity * item.rate) init
        = init + (items.map (fun item => item.quantity * item.rate)).sum := by
  induction items with
  | nil => intro init; simp
  | cons hd tl ih =>
      intro init
      simp only [List.foldl_cons, List.map_cons, List.sum_cons]
      rw [ih]
      ring

/-- C1: the calculation engine satisfies subtotal = Σ quantity·rate,
tax = subtotal·rate, total = subtotal + tax − discount; in particular the
scenario items [(qty 2, rate 50), (qty 1, rate 100)] with tax rate 0.08 and
discount 0 yield subtotal 200, tax 16, total 216. -/
theorem calculation_engine_correct :
    (∀ items : List LineItem,
        Invoice.calculateSubtotal items
          = (items.map (fun item => item.quantity * item.rate)).sum)
    ∧ (∀ subtotal taxRate : ℚ,
        Invoice.calculateTaxAmount subtotal taxRate = subtotal * taxRate)
    ∧ (∀ subtotal taxAmount discount : ℚ,
        Invoice.calculateTotal subtotal taxAmount (some discount)
          = subtotal + taxAmount - discount)
    ∧ Invoice.calculateSubtotal [⟨"A", 2, 50⟩, ⟨"B", 1, 100⟩] = 200
    ∧ Invoice.calculateTaxAmount 200 (8 / 100) = 16
    ∧ Invoice.calculateTotal 200 16 (some 0) = 216 := by
  refine ⟨?_, ?_, ?_, ?_, ?_, ?_⟩
  · intro items
    simpa using foldl_add_map_sum items 0
  · intro s r; rfl
  · intro s t d
    by_cases hd : d = 0 <;> simp [Invoice.calculateTotal, jsNumOr, hd]
  · norm_num [Invoice.calculateSubtotal, List.foldl]
  · norm_num [Invoice.calculateTaxAmount]
  · norm_num [Invoice.calculateTotal, jsNumOr]

/-- C2: the generated invoice number is INV-{year}{month:2}-{seq:4} with
seq = (count of stored numbers matching the period pattern) + 1, and on a
store failure the call degrades to the timestamp identifier INV-{epochMillis}
instead of failing. -/
theorem invoice_number_format :
    (∀ (year month : Nat) (numbers : List String) (nowMillis : Nat),
        Invoice.generateInvoiceNumber year month (.ok numbers) nowMillis
          = "INV-" ++ toString year ++ padStart (toString month) 2 '0' ++ "-"
            ++ padStart (toString
                ((numbers.filter
                    (fun s => strStartsWith s (periodPattern year month))).length + 1)) 4 '0')
    ∧ (∀ (year month nowMillis : Nat),
        Invoice.generateInvoiceNumber year month (.error ()) nowMillis
          = "INV-" ++ toString nowMillis)
    ∧ Invoice.generateInvoiceNumber 2026 10
        (.ok ["INV-202610-0001", "INV-202609-0005"]) 1760000000000
        = "INV-202610-0002"
    ∧ Invoice.generateInvoiceNumber 2026 10 (.error ()) 1760000000000
        = "INV-1760000000000" := by
  refine ⟨fun _ _ _ _ => rfl, fun _ _ _ => rfl, by decide, by decide⟩

/-- C3: a status update to `sent` sets `sentAt` only when it is unset, a
status update to `paid` sets `paidAt` only when it is unset, and re-entering
the same status a second time changes neither timestamp. -/
theorem status_timestamps_set_once :
    (∀ (inv : Invoice) (now t : String), inv.sentAt = some t →
        (Invoice.updateStatus inv "sent" now).sentAt = some t)
    ∧ (∀ (inv : Invoice) (now : String), inv.sentAt = none →
        (Invoice.updateStatus inv "sent" now).sentAt = some now)
    ∧ (∀ (inv : Invoice) (now t : String), inv.paidAt = some t →
        (Invoice.updateStatus inv "paid" now).paidAt = some t)
    ∧ (∀ (inv : Invoice) (now : String), inv.paidAt = none →
        (Invoice.updateStatus inv "paid" now).paidAt = some now)
    ∧ (∀ (inv : Invoice) (status now1 now2 : String),
        (Invoice.updateStatus (Invoice.updateStatus inv status now1) status now2).sentAt
            = (Invoice.updateStatus inv status now1).sentAt
        ∧ (Invoice.updateStatus (Invoice.updateStatus inv status now1) status now2).paidAt
            = (Invoice.updateStatus inv status now1).paidAt) := by
  refine ⟨?_, ?_, ?_, ?_, ?_⟩
  · intro inv now t h; simp [Invoice.updateStatus, h]
  · intro inv now h; simp [Invoice.updateStatus, h]
  · intro inv now t h; simp [Invoice.updateStatus, h]
  · intro inv now h; simp [Invoice.updateStatus, h]
  · intro inv status now1 now2
    by_cases hs : status = "sent"
    · subst hs
      cases h1 : inv.sentAt <;> simp [Invoice.updateStatus, h1]
    · by_cases hp : status = "paid"
      · subst hp
        cases h1 : inv.paidAt <;> simp [Invoice.updateStatus, h1]
      · simp [Invoice.updateStatus, hs, hp]

/-- Witness for C3 at concrete invoices: a second `sent` update keeps the
first timestamp, a first `sent` update stamps it, and likewise for `paid`. -/
theorem status_timestamps_set_once_witness :
    (Invoice.updateStatus ⟨"i1", "c1", "N1", "sent", "default", some "T0", none⟩
        "sent" "T1").sentAt = some "T0"
    ∧ (Invoice.updateStatus ⟨"i2", "c1", "N2", "draft", "default", none, none⟩
        "sent" "T1").sentAt = some "T1"
    ∧ (Invoice.updateStatus ⟨"i3", "c1", "N3", "paid", "default", none, some "T0"⟩
        "paid" "T2").paidAt = some "T0"
    ∧ (Invoice.updateStatus ⟨"i4", "c1", "N4", "sent", "default", some "T0", none⟩
        "paid" "T2").paidAt = some "T2" :=
  ⟨status_timestamps_set_once.1 _ "T1" "T0" rfl,
   status_timestamps_set_once.2.1 _ "T1" rfl,
   status_timestamps_set_once.2.2.1 _ "T2" "T0" rfl,
   status_timestamps_set_once.2.2.2.1 _ "T2" rfl⟩

/-- C5 (code defect): both guards of the delete endpoint test a pending
Promise and never fire, so every delete request — including one for a paid
invoice — removes the row and reports success; at the failing input the
stored paid invoice is deleted, contradicting the claim that it is rejected
and remains stored. -/
theorem paid_invoice_deleted_unguarded :
    (∀ (invoices : List Invoice) (id : String),
        deleteInvoice invoices id
          = (.deleted, invoices.filter (fun i => i.id ≠ id)))
    ∧ deleteInvoice
        [⟨"i1", "c1", "INV-202610-0001", "paid", "default", some "S", some "P"⟩] "i1"
        = (.deleted, []) := by
  exact ⟨fun invoices id => rfl, by decide⟩

/-- C4: on every exit path of a PDF-generation call — success, render
failure, launch failure, page failure, content-load timeout, extraction or
save failure — the number of browser launches in the lifecycle trace equals
the number of browser closes: a launched rendering-engine instance is always
closed before the call returns or propagates. -/
theorem browser_always_closed :
    ∀ (invoices : List Invoice) (clients : List Client) (templates : List Template)
      (invoiceId : String) (templateId : Option String)
      (hb : String → Except String String) (env : PdfEnv) (nowMillis : Nat),
      ((generateInvoicePDF invoices clients templates invoiceId templateId
          hb env nowMillis).2.count PdfEvent.browserLaunched)
        = ((generateInvoicePDF invoices clients templates invoiceId templateId
            hb env nowMillis).2.count PdfEvent.browserClosed) := by
  intro invoices clients templates invoiceId templateId hb env nowMillis
  unfold generateInvoicePDF
  dsimp only
  repeat' split
  all_goals rfl

/-- C8 (code defect): the not-found check of the render step tests a pending
Promise and never fires; every PDF-generation call — in particular one whose
invoice id resolves to no stored invoice — fails with the TypeError raised by
calling getClient on the Promise, which is not the NotFound error; the
failure precedes the launch, so the rendering-engine trace is empty and no
browser instance is ever started (that half of the claim holds). -/
theorem pdf_missing_invoice_typeerror :
    (∀ (invoiceId : String) (templateId : Option String) (env : PdfEnv)
        (nowMillis : Nat),
        generateInvoicePDFUnawaited invoiceId templateId env nowMillis
          = (.error (.typeError "invoice.getClient is not a function"), []))
    ∧ PdfError.typeError "invoice.getClient is not a function"
        ≠ PdfError.invoiceNotFound
    ∧ renderInvoiceWithTemplateUnawaited "missing-id" none
        = .error (.typeError "invoice.getClient is not a function") := by
  exact ⟨fun _ _ _ _ => rfl, by decide, rfl⟩

/-- C9 (code defect): every sendInvoice call throws the TypeError at
invoice.getClient before the PDF-attachment block or the mail transport is
reached, for every combination of stores, options and collaborator outcomes;
in particular, with PDF attachment enabled, a failing PDF collaborator and a
healthy transport, no email is sent at all — the degraded
send-without-attachment path the claim describes does not exist in the
source. -/
theorem email_never_sent_typeerror :
    (∀ (invoices : List Invoice) (clients : List Client) (invoiceId : String)
        (opts : EmailOptions) (pdfResult : Except String (List Nat))
        (mailResult : Except String String),
        sendInvoiceEmail invoices clients invoiceId opts pdfResult mailResult
          = (.error "TypeError: invoice.getClient is not a function", []))
    ∧ sendInvoiceEmail
        [⟨"i1", "c1", "INV-202610-0001", "draft", "default", none, none⟩]
        [⟨"c1", "Client", "c@example.com"⟩] "i1"
        ⟨none, none, none, none, none, none, none⟩
        (.error "browser crashed") (.ok "msg-1")
        = (.error "TypeError: invoice.getClient is not a function", []) := by
  exact ⟨fun _ _ _ _ _ _ => rfl, rfl⟩

/-- C10: a tax rate of 0 is falsy in the defaulting chains of the Invoice
constructor and of Invoice.create, so the stored rate becomes the default
(the TAX_RATE environment value, else 0.08, for the constructor; the literal
0.08 for create), and zero can never come out of either chain whenever the
environment default itself is not 0. -/
theorem zero_tax_rate_not_representable :
    (∀ env : Option ℚ, Invoice.constructorTaxRate (some 0) none env = env.getD (8 / 100))
    ∧ (∀ env : Option ℚ, Invoice.constructorTaxRate none (some 0) env = env.getD (8 / 100))
    ∧ Invoice.createTaxRate (some 0) = 8 / 100
    ∧ (∀ snake camel env : Option ℚ, env ≠ some 0 →
        Invoice.constructorTaxRate snake camel env ≠ 0)
    ∧ (∀ t : Option ℚ, Invoice.createTaxRate t ≠ 0) := by
  have hgetD : ∀ env : Option ℚ, env ≠ some 0 → env.getD (8 / 100) ≠ 0 := by
    intro env henv
    cases env with
    | none => norm_num
    | some v =>
        simpa using fun hv => henv (by rw [hv])
  refine ⟨fun env => rfl, fun env => rfl, rfl, ?_, ?_⟩
  · intro snake camel env henv
    unfold Invoice.constructorTaxRate
    cases h : jsNumOr snake camel with
    | none => exact hgetD env henv
    | some v =>
        by_cases hv : v = 0
        · simpa [hv] using hgetD env henv
        · simp [hv]
  · intro t
    unfold Invoice.createTaxRate
    cases t with
    | none => norm_num
    | some v =>
        by_cases hv : v = 0 <;> simp [hv]

/-- Witness for C10: with no TAX_RATE environment value a zero input rate
becomes 0.08; with TAX_RATE=0.05 it becomes 0.05; the create chain maps it to
the literal 0.08; and neither chain yields zero. -/
theorem zero_tax_rate_not_representable_witness :
    Invoice.constructorTaxRate (some 0) none none = 8 / 100
    ∧ Invoice.constructorTaxRate none (some 0) (some (5 / 100)) = 5 / 100
    ∧ Invoice.createTaxRate (some 0) = 8 / 100
    ∧ Invoice.constructorTaxRate (some 0) none none ≠ 0
    ∧ Invoice.createTaxRate (some 0) ≠ 0 :=
  ⟨zero_tax_rate_not_representable.1 none,
   zero_tax_rate_not_representable.2.1 (some (5 / 100)),
   zero_tax_rate_not_representable.2.2.1,
   zero_tax_rate_not_representable.2.2.2.1 (some 0) none none (by decide),
   zero_tax_rate_not_representable.2.2.2.2 (some 0)⟩

/-- C7: a create with isDefault=true leaves every pre-existing template
non-default (the new template, appended last, is the only default); an update
that sets isDefault=true on the template at index i leaves every template at
any other index non-default, while the updated record keeps the flag. -/
theorem default_flag_exclusive :
    (∀ (db : List Template) (data : TemplateData) (freshId : String),
        data.isDefault = some true →
        (Template.create db data freshId).1.isDefault = true
        ∧ ∀ x ∈ ((Template.create db data freshId).2).dropLast, x.isDefault = false)
    ∧ (∀ (db : List Template) (id : String) (d : TemplateUpdateData) (i : Nat)
        (old : Template),
        d.isDefault = some true →
        db.findIdx? (fun t => t.id == id) = some i →
        db[i]? = some old →
        ((Template.update db id d).2)[i]? = some (Template.applyUpdate old d)
        ∧ (Template.applyUpdate old d).isDefault = true
        ∧ ∀ j, j ≠ i → ∀ x, ((Template.update db id d).2)[j]? = some x →
            x.isDefault = false) := by
  constructor
  · intro db data freshId h
    constructor
    · simp [Template.create, Template.mkNew, h]
    · intro x hx
      simp [Template.create, Template.mkNew, h, List.dropLast_concat] at hx
      obtain ⟨y, -, hxy⟩ := hx
      rw [← hxy]
  · intro db id d i old h hidx hold
    have hupd : (Template.applyUpdate old d).isDefault = true := by
      simp [Template.applyUpdate, h]
    have hi : i < db.length := by
      rcases List.getElem?_eq_some.mp hold with ⟨hn, -⟩
      exact hn
    have hstore : (Template.update db id d).2
        = (db.mapIdx (fun j t => if j = i then t else { t with isDefault := false })).set i
            (Template.applyUpdate old d) := by
      simp [Template.update, hidx, hold, hupd]
    refine ⟨?_, hupd, ?_⟩
    · rw [hstore]
      exact List.getElem?_set_eq_of_lt _ (by rw [List.length_mapIdx]; exact hi)
    · intro j hj x hx
      rw [hstore, List.getElem?_set_ne (Ne.symm hj)] at hx
      rcases List.getElem?_eq_some.mp hx with ⟨hjl, hval⟩
      rw [List.getElem_mapIdx] at hval
      rw [← hval]
      simp [hj]

/-- Witness for C7 at a concrete store where template a holds the default
flag and template b is updated with isDefault=true, and where a create adds a
new default template c: the flag moves in both cases. -/
theorem default_flag_exclusive_witness :
    (Template.create [⟨"a", "A", "", "H", "", true⟩]
        ⟨some "c", "C", none, "H2", none, some true⟩ "uuid").1.isDefault = true
    ∧ (⟨"a", "A", "", "H", "", false⟩ : Template).isDefault = false
    ∧ ((Template.update
        [⟨"a", "A", "", "H", "", true⟩, ⟨"b", "B", "", "H", "", false⟩]
        "b" ⟨none, none, none, none, some true⟩).2)[1]?
        = some (Template.applyUpdate ⟨"b", "B", "", "H", "", false⟩
            ⟨none, none, none, none, some true⟩)
    ∧ (Template.applyUpdate ⟨"b", "B", "", "H", "", false⟩
        ⟨none, none, none, none, some true⟩).isDefault = true :=
  ⟨(default_flag_exclusive.1 [⟨"a", "A", "", "H", "", true⟩]
      ⟨some "c", "C", none, "H2", none, some true⟩ "uuid" rfl).1,
   (default_flag_exclusive.1 [⟨"a", "A", "", "H", "", true⟩]
      ⟨some "c", "C", none, "H2", none, some true⟩ "uuid" rfl).2
      ⟨"a", "A", "", "H", "", false⟩ (by decide),
   (default_flag_exclusive.2
      [⟨"a", "A", "", "H", "", true⟩, ⟨"b", "B", "", "H", "", false⟩]
      "b" ⟨none, none, none, none, some true⟩ 1 ⟨"b", "B", "", "H", "", false⟩
      rfl (by decide) rfl).1,
   (default_flag_exclusive.2
      [⟨"a", "A", "", "H", "", true⟩, ⟨"b", "B", "", "H", "", false⟩]
      "b" ⟨none, none, none, none, some true⟩ 1 ⟨"b", "B", "", "H", "", false⟩
      rfl (by decide) rfl).2.1⟩

/-- Counterexample to C6 as stated: a creation request whose body "BAD" is
unparsable by the compile collaborator, but whose name "A" collides with a
stored template, is rejected by the earlier name-uniqueness check, so the
returned error is the name-conflict rejection and does not identify the parse
failure.  (The template is still not stored.) -/
theorem conflict_masks_parse_failure :
    hbCompileStub "BAD" = .error "Parse error on line 1: unexpected end of input"
    ∧ (createTemplate [⟨"t1", "A", "", "OK", "", true⟩]
        ⟨none, "A", none, "BAD", none, some false⟩ hbCompileStub "t2").1
        = .nameConflict
    ∧ ((createTemplate [⟨"t1", "A", "", "OK", "", true⟩]
        ⟨none, "A", none, "BAD", none, some false⟩ hbCompileStub "t2").1).isParseError
        = false
    ∧ (createTemplate [⟨"t1", "A", "", "OK", "", true⟩]
        ⟨none, "A", none, "BAD", none, some false⟩ hbCompileStub "t2").2
        = [⟨"t1", "A", "", "OK", "", true⟩] := by
  refine ⟨rfl, by decide, by decide, by decide⟩

/-- C6 as amended: whenever the request body is unparsable the store is
unchanged and nothing is stored, on both create and update; and when the
request additionally passes the earlier checks (no duplicate name; for
update, an existing id) the rejection is the structured parse error carrying
the compile failure's message. -/
theorem template_syntax_check_guards_store :
    (∀ (db : List Template) (body : TemplateData) (compile : String → Except String Unit)
        (freshId : String) (e : String),
        compile body.htmlContent = .error e →
        (createTemplate db body compile freshId).2 = db
        ∧ (db.any (fun t => t.name == body.name) = false →
            createTemplate db body compile freshId = (.parseError e, db)))
    ∧ (∀ (db : List Template) (id : String) (body : TemplateUpdateData)
        (compile : String → Except String Unit) (e : String),
        jsTruthyStr body.htmlContent = true →
        compile (body.htmlContent.getD "") = .error e →
        (updateTemplate db id body compile).2 = db)
    ∧ (∀ (db : List Template) (id : String) (body : TemplateUpdateData)
        (compile : String → Except String Unit) (e : String) (existing : Template),
        db.find? (fun t => t.id == id) = some existing →
        (jsTruthyStr body.name && (body.name.getD "" != existing.name)
            && db.any (fun t => t.id != id && t.name == body.name.getD "")) = false →
        jsTruthyStr body.htmlContent = true →
        compile (body.htmlContent.getD "") = .error e →
        updateTemplate db id body compile = (.parseError e, db)) := by
  refine ⟨?_, ?_, ?_⟩
  · intro db body compile freshId e hcompile
    constructor
    · unfold createTemplate
      split
      · rfl
      · rw [hcompile]
    · intro hno
      simp [createTemplate, hno, hcompile]
  · intro db id body compile e hhtml hcompile
    unfold updateTemplate
    cases hfind : db.find? (fun t => t.id == id) with
    | none => rfl
    | some ex =>
        simp only [hhtml, hcompile, if_true]
        split <;> rfl
  · intro db id body compile e existing hfind hconf hhtml hcompile
    simp [updateTemplate, hfind, hconf, hhtml, hcompile]

/-- Witness for the amended C6: a create into an empty store with the
unparsable body is rejected with the parse message and stores nothing, and an
update of an existing template with the unparsable body likewise. -/
theorem template_syntax_check_guards_store_witness :
    createTemplate [] ⟨none, "New", none, "BAD", none, none⟩ hbCompileStub "t9"
      = (.parseError "Parse error on line 1: unexpected end of input", [])
    ∧ updateTemplate [⟨"t1", "A", "", "OK", "", true⟩] "t1"
        ⟨none, none, some "BAD", none, none⟩ hbCompileStub
      = (.parseError "Parse error on line 1: unexpected end of input",
         [⟨"t1", "A", "", "OK", "", true⟩]) :=
  ⟨(template_syntax_check_guards_store.1 [] ⟨none, "New", none, "BAD", none, none⟩
      hbCompileStub "t9" "Parse error on line 1: unexpected end of input" rfl).2 rfl,
   template_syntax_check_guards_store.2.2 [⟨"t1", "A", "", "OK", "", true⟩] "t1"
      ⟨none, none, some "BAD", none, none⟩ hbCompileStub
      "Parse error on line 1: unexpected end of input" ⟨"t1", "A", "", "OK", "", true⟩
      rfl rfl rfl rfl⟩
